import Mathlib

/-!
# EMTU Live Checker — shallow embedding and verification

This file embeds the monitoring/alerting core of the EMTU-LIVE-CHECKER
repository in Lean 4 and proves (or refutes) the specification claims about
it.  The embedding follows the JavaScript source:

* `AlertManager` (src/src/services/alertManager.js): cooldown and daily-cap
  alert gating (`shouldSendAlert`), alert recording with bounded history
  (`recordAlert`), `getTodayAlerts`.
* `ConfigManager` (src/unnamed/part_003): durable CRUD over monitoring
  configurations (`saveConfiguration`, `getConfiguration`,
  `getActiveConfigurations`, `deactivateConfiguration`,
  `deactivateAllConfigurations`).
* `EMTULiveChecker` (src/unnamed/part_005): the scheduler (`stopMonitoring`,
  `stopAllMonitoring`), the monitor tick (`checkBusProximity`) and the
  haversine distance (`calculateDistance`).
* `EMTUService` (src/unnamed/part_002): `getVehiclePositions`,
  `getStopLocation` and their mock-data fallbacks.

Modelling conventions: JavaScript `Map`s become association lists with
JS-`Map` get/set/delete semantics (insertion order preserved, set replaces in
place); timestamps are naturals counting milliseconds, and `Date.now()`
subtraction is modelled in `Int`; the local-midnight computation
`setHours(0,0,0,0)` is modelled with a day boundary at multiples of
86,400,000 ms (timezone offset abstracted to zero); JS floating-point numbers
become real numbers.  The distance value stored inside alert records is never
inspected by the alert logic, so the alert store is parametrised by the
distance type `δ` (instantiated with `ℝ` where the tick records real
distances and with `Unit` in concrete evaluations).
-/

namespace EmtuChecker

/-! ## JS `Map` model: association lists keyed by strings -/

/-- Embeds `Map.get`: value at the first (unique, for JS maps) matching key. -/
def mapGet {α : Type} : List (String × α) → String → Option α
  | [], _ => none
  | (k', v) :: rest, k => if k' = k then some v else mapGet rest k

/-- Embeds `Map.set`: replace the entry in place if the key is present, otherwise
append at the end (JS maps preserve insertion order). -/
def mapSet {α : Type} : List (String × α) → String → α → List (String × α)
  | [], k, v => [(k, v)]
  | (k', v') :: rest, k, v =>
    if k' = k then (k, v) :: rest else (k', v') :: mapSet rest k v

/-- Embeds `String.prototype.startsWith`, via character lists so that concrete
instances evaluate by kernel reduction. -/
def strStartsWith (s p : String) : Bool := List.isPrefixOf p.data s.data

/-! ## AlertManager (src/src/services/alertManager.js) -/

/-- Embeds `this.cooldownPeriod = 10 * 60 * 1000` (milliseconds). -/
def cooldownPeriod : Nat := 10 * 60 * 1000

/-- Milliseconds per day, for the local-midnight computation. -/
def msPerDay : Nat := 24 * 60 * 60 * 1000

/-- Embeds `today.setHours(0, 0, 0, 0)`: midnight of the day containing `t`. -/
def midnightOf (t : Nat) : Nat := t - t % msPerDay

/-- One entry of the per-(chatId, routeId) alert history
(`recordAlert`'s `alertRecord` object). -/
structure AlertRecord (δ : Type) where
  vehicleId : String
  distance : δ
  stopName : String
  timestamp : Nat
  alertKey : String
  deriving DecidableEq

/-- One entry of `this.sentAlerts` (the cooldown mark written by
`recordAlert`). -/
structure SentAlertMark (δ : Type) where
  chatId : String
  routeId : String
  vehicleId : String
  lastSent : Nat
  distance : δ
  stopName : String
  deriving DecidableEq

/-- The `AlertManager` in-memory state: `this.alerts` and `this.sentAlerts`. -/
structure AlertState (δ : Type) where
  alerts : List (String × List (AlertRecord δ))
  sentAlerts : List (String × SentAlertMark δ)
  deriving DecidableEq

/-- Embeds `generateAlertKey(chatId, routeId, vehicleId)`. -/
def generateAlertKey (chatId routeId vehicleId : String) : String :=
  chatId ++ "_" ++ routeId ++ "_" ++ vehicleId

/-- Embeds `generateChatRouteKey(chatId, routeId)`. -/
def generateChatRouteKey (chatId routeId : String) : String :=
  chatId ++ "_" ++ routeId

/-- Embeds `getTodayAlerts(chatId, routeId)` evaluated at current time `now`:
the stored history filtered to records with timestamp at or after local
midnight. -/
def getTodayAlerts {δ : Type} (st : AlertState δ) (now : Nat)
    (chatId routeId : String) : List (AlertRecord δ) :=
  let alerts := (mapGet st.alerts (generateChatRouteKey chatId routeId)).getD []
  alerts.filter (fun a => decide (midnightOf now ≤ a.timestamp))

/-- The body of `shouldSendAlert`'s `try` block.  Every operation it performs
(map lookups, integer arithmetic, list filtering) is total, so the body never
reaches the error case; it is kept in `Except` to mirror the source's
try/catch structure. -/
def shouldSendAlertBody {δ : Type} (st : AlertState δ) (now : Nat)
    (chatId routeId vehicleId : String) (maxAlerts : Nat) :
    Except String Bool :=
  let alertKey := generateAlertKey chatId routeId vehicleId
  let cooldownActive :=
    match mapGet st.sentAlerts alertKey with
    | some lastAlert => decide ((now : Int) - lastAlert.lastSent < (cooldownPeriod : Int))
    | none => false
  if cooldownActive then
    Except.ok false
  else if (getTodayAlerts st now chatId routeId).length ≥ maxAlerts then
    Except.ok false
  else
    Except.ok true

/-- The `catch` arm of `shouldSendAlert`: log and return `false`. -/
def alertCheckFallback : String → Bool := fun _ => false

/-- Embeds `shouldSendAlert(chatId, routeId, vehicleId, maxAlerts)`: the try body
with the catch arm mapping any internal error to `false`. -/
def shouldSendAlert {δ : Type} (st : AlertState δ) (now : Nat)
    (chatId routeId vehicleId : String) (maxAlerts : Nat) : Bool :=
  match shouldSendAlertBody st now chatId routeId vehicleId maxAlerts with
  | Except.ok b => b
  | Except.error e => alertCheckFallback e

/-- Embeds `recordAlert(chatId, routeId, vehicleId, distance, stopName)`: upsert the
cooldown mark, append to the per-(chatId, routeId) history, and trim the
history to its newest 100 records. -/
def recordAlert {δ : Type} (st : AlertState δ) (now : Nat)
    (chatId routeId vehicleId : String) (distance : δ) (stopName : String) :
    AlertState δ :=
  let alertKey := generateAlertKey chatId routeId vehicleId
  let chatRouteKey := generateChatRouteKey chatId routeId
  let sentAlerts := mapSet st.sentAlerts alertKey
    { chatId := chatId, routeId := routeId, vehicleId := vehicleId
      lastSent := now, distance := distance, stopName := stopName }
  let alertRecord : AlertRecord δ :=
    { vehicleId := vehicleId, distance := distance, stopName := stopName
      timestamp := now, alertKey := alertKey }
  let newList := (mapGet st.alerts chatRouteKey).getD [] ++ [alertRecord]
  let trimmed := if newList.length > 100
    then newList.drop (newList.length - 100) else newList
  { alerts := mapSet st.alerts chatRouteKey trimmed, sentAlerts := sentAlerts }

/-! ## ConfigManager (src/unnamed/part_003) -/

/-- A monitoring configuration, with the fields built by
`handleMonitorCommand` (src/unnamed/part_005) and maintained by
`ConfigManager`.  Timestamps are naturals (milliseconds). -/
structure MonitorConfig where
  chatId : String
  routeId : String
  routeNumber : String
  stopId : String
  stopName : String
  proximityThreshold : Nat
  maxAlerts : Nat
  createdAt : Nat
  lastUpdated : Nat
  isActive : Bool
  deriving DecidableEq

/-- The `ConfigManager` in-memory state: `this.configurations`. -/
structure ConfigState where
  configurations : List (String × MonitorConfig)
  deriving DecidableEq

/-- Embeds `generateConfigKey(chatId, routeNumber)`. -/
def generateConfigKey (chatId routeNumber : String) : String :=
  chatId ++ "_" ++ routeNumber

/-- Embeds `saveConfiguration(chatId, routeNumber, config)`: store
`{...config, lastUpdated: new Date()}` under the config key.  Returns the
source's boolean result together with the new state. -/
def saveConfiguration (st : ConfigState) (now : Nat)
    (chatId routeNumber : String) (config : MonitorConfig) :
    Bool × ConfigState :=
  let key := generateConfigKey chatId routeNumber
  let configToSave := { config with lastUpdated := now }
  (true, { configurations := mapSet st.configurations key configToSave })

/-- Embeds `getConfiguration(chatId, routeNumber)`: `configurations.get(key) || null`. -/
def getConfiguration (st : ConfigState) (chatId routeNumber : String) :
    Option MonitorConfig :=
  mapGet st.configurations (generateConfigKey chatId routeNumber)

/-- Stable insertion preserving descending `createdAt` order, inserting after
all entries that sort no later (JS `Array.prototype.sort` comparator
`(a, b) => b.createdAt - a.createdAt`). -/
def insertByCreatedAtDesc (c : MonitorConfig) :
    List MonitorConfig → List MonitorConfig
  | [] => [c]
  | x :: xs =>
    if c.createdAt ≤ x.createdAt then x :: insertByCreatedAtDesc c xs
    else c :: x :: xs

/-- Sort configurations by creation date, newest first. -/
def sortByCreatedAtDesc : List MonitorConfig → List MonitorConfig
  | [] => []
  | x :: xs => insertByCreatedAtDesc x (sortByCreatedAtDesc xs)

/-- Embeds `getActiveConfigurations(chatId)`: entries whose key starts with
`chatId + '_'` and which are active, sorted newest-first. -/
def getActiveConfigurations (st : ConfigState) (chatId : String) :
    List MonitorConfig :=
  let configs := (st.configurations.filter
    (fun p => strStartsWith p.1 (chatId ++ "_") && p.2.isActive)).map Prod.snd
  sortByCreatedAtDesc configs

/-- Embeds `deactivateConfiguration(chatId, routeNumber)`: if the config exists, set
`isActive = false` and refresh `lastUpdated`; returns whether one was found. -/
def deactivateConfiguration (st : ConfigState) (now : Nat)
    (chatId routeNumber : String) : Bool × ConfigState :=
  let key := generateConfigKey chatId routeNumber
  match mapGet st.configurations key with
  | some config =>
    let deactivated := { config with isActive := false, lastUpdated := now }
    (true, { configurations := mapSet st.configurations key deactivated })
  | none => (false, st)

/-- Embeds `deactivateAllConfigurations(chatId)`: deactivate every active entry whose
key starts with `chatId + '_'`; returns the count deactivated. -/
def deactivateAllConfigurations (st : ConfigState) (now : Nat)
    (chatId : String) : Nat × ConfigState :=
  let hit := fun (p : String × MonitorConfig) =>
    strStartsWith p.1 (chatId ++ "_") && p.2.isActive
  let count := (st.configurations.filter hit).length
  let updated := st.configurations.map (fun p =>
    if hit p then (p.1, { p.2 with isActive := false, lastUpdated := now })
    else p)
  (count, { configurations := updated })

/-! ## MonitorScheduler (`EMTULiveChecker`, src/unnamed/part_005) -/

/-- A proximity notification delivered through the WhatsApp client
(`sendProximityAlert`), kept structurally rather than as formatted text. -/
structure ProximityAlert (δ : Type) where
  chatId : String
  routeNumber : String
  stopName : String
  vehicleId : String
  distance : δ
  deriving DecidableEq

/-- The application state relevant to the scheduler: the in-memory
`this.monitoringIntervals` key set, the config store, the alert store, and
the outbound messages sent so far. -/
structure CheckerState (δ : Type) where
  monitoringIntervals : List String
  configState : ConfigState
  alertState : AlertState δ
  sentMessages : List (ProximityAlert δ)
  deriving DecidableEq

/-- Embeds `stopMonitoring(chatId, routeNumber)`: if an interval task exists for the
key, clear it, remove it from the map, deactivate the persisted config, and
return `true`; otherwise return `false`. -/
def stopMonitoring {δ : Type} (st : CheckerState δ) (now : Nat)
    (chatId routeNumber : String) : Bool × CheckerState δ :=
  let key := chatId ++ "_" ++ routeNumber
  if st.monitoringIntervals.contains key then
    let cfg := deactivateConfiguration st.configState now chatId routeNumber
    (true, { st with
      monitoringIntervals := st.monitoringIntervals.filter (fun k => k ≠ key)
      configState := cfg.2 })
  else
    (false, st)

/-- Embeds `stopAllMonitoring(chatId)`: clear and remove every interval whose key
starts with `chatId + '_'`; if any were stopped, deactivate all of the chat's
configurations; return the count stopped. -/
def stopAllMonitoring {δ : Type} (st : CheckerState δ) (now : Nat)
    (chatId : String) : Nat × CheckerState δ :=
  let pfxd := chatId ++ "_"
  let stoppedCount :=
    (st.monitoringIntervals.filter (fun k => strStartsWith k pfxd)).length
  let remaining :=
    st.monitoringIntervals.filter (fun k => !(strStartsWith k pfxd))
  if stoppedCount > 0 then
    let cfg := deactivateAllConfigurations st.configState now chatId
    (stoppedCount, { st with monitoringIntervals := remaining
                             configState := cfg.2 })
  else
    (stoppedCount, { st with monitoringIntervals := remaining })

/-! ## GeoDistance (`calculateDistance`, src/unnamed/part_005) -/

/-- JavaScript `Math.atan2(y, x)` on finite reals. -/
noncomputable def atan2 (y x : ℝ) : ℝ :=
  if 0 < x then Real.arctan (y / x)
  else if x < 0 then
    (if 0 ≤ y then Real.arctan (y / x) + Real.pi
     else Real.arctan (y / x) - Real.pi)
  else
    (if 0 < y then Real.pi / 2
     else if y < 0 then -(Real.pi / 2)
     else 0)

/-- Embeds `calculateDistance(lat1, lon1, lat2, lon2)`: haversine great-circle
distance in metres with mean Earth radius `R = 6371e3`. -/
noncomputable def calculateDistance (lat1 lon1 lat2 lon2 : ℝ) : ℝ :=
  let R : ℝ := 6371e3
  let phi1 := lat1 * Real.pi / 180
  let phi2 := lat2 * Real.pi / 180
  let dPhi := (lat2 - lat1) * Real.pi / 180
  let dLam := (lon2 - lon1) * Real.pi / 180
  let a := Real.sin (dPhi / 2) * Real.sin (dPhi / 2) +
    Real.cos phi1 * Real.cos phi2 * Real.sin (dLam / 2) * Real.sin (dLam / 2)
  let c := 2 * atan2 (Real.sqrt a) (Real.sqrt (1 - a))
  R * c

/-! ## EMTUService (src/unnamed/part_002) -/

/-- A normalized vehicle position (`normalizeVehicles` output shape /
`getMockVehicles` element shape). -/
structure Vehicle where
  id : String
  routeId : String
  latitude : ℝ
  longitude : ℝ
  bearing : ℤ
  speed : ℤ
  timestamp : Nat
  status : String

/-- A stop location (`getStopLocation` result shape). -/
structure StopLocation where
  id : String
  latitude : ℝ
  longitude : ℝ
  name : String
  address : String

/-- The `Math.random()` draws consumed by `getMockVehicles`, in source
order (latitude, longitude, bearing, speed for each of the two vehicles).
Each draw lies in `[0, 1)`. -/
structure MockRands where
  lat1 : ℝ
  lon1 : ℝ
  bear1 : ℝ
  speed1 : ℝ
  lat2 : ℝ
  lon2 : ℝ
  bear2 : ℝ
  speed2 : ℝ

/-- Embeds `getMockVehicles(routeId)`: the two hard-coded fallback vehicles with
randomized jitter around fixed coordinates. -/
noncomputable def getMockVehicles (routeId : String) (now : Nat)
    (ρ : MockRands) : List Vehicle :=
  [ { id := "vehicle_" ++ routeId ++ "_001"
      routeId := routeId
      latitude := -23.6000 + (ρ.lat1 - 0.5) * 0.01
      longitude := -46.4500 + (ρ.lon1 - 0.5) * 0.01
      bearing := ⌊ρ.bear1 * 360⌋
      speed := ⌊ρ.speed1 * 50⌋
      timestamp := now
      status := "active" },
    { id := "vehicle_" ++ routeId ++ "_002"
      routeId := routeId
      latitude := -23.5950 + (ρ.lat2 - 0.5) * 0.01
      longitude := -46.4450 + (ρ.lon2 - 0.5) * 0.01
      bearing := ⌊ρ.bear2 * 360⌋
      speed := ⌊ρ.speed2 * 50⌋
      timestamp := now
      status := "active" } ]

/-- Embeds `getMockStopLocation(stopId)`: hard-coded fallback stop coordinates. -/
noncomputable def getMockStopLocation (stopId : String) : StopLocation :=
  if stopId = "stop_001" then
    { id := stopId, latitude := -23.6094, longitude := -46.4736
      name := "Parada " ++ stopId, address := "Endereço da parada" }
  else if stopId = "stop_002" then
    { id := stopId, latitude := -23.5963, longitude := -46.4026
      name := "Parada " ++ stopId, address := "Endereço da parada" }
  else if stopId = "stop_003" then
    { id := stopId, latitude := -23.5489, longitude := -46.5692
      name := "Parada " ++ stopId, address := "Endereço da parada" }
  else
    { id := stopId, latitude := -23.5505, longitude := -46.6333
      name := "Parada " ++ stopId, address := "Endereço da parada" }

/-- Embeds `getVehiclePositions(routeId)`: on a successful request, the normalized
response vehicles (the HTTP layer is abstracted as an `Option` of the
normalized list); on a thrown request (`none`), log and fall back to
`getMockVehicles(routeId)`. -/
noncomputable def getVehiclePositions (response : Option (List Vehicle))
    (routeId : String) (now : Nat) (ρ : MockRands) : List Vehicle :=
  match response with
  | some vehicles => vehicles
  | none => getMockVehicles routeId now ρ

/-- Embeds `getStopLocation(stopId)`: the fetched location, or the mock fallback
when the request throws. -/
noncomputable def getStopLocation (response : Option StopLocation)
    (stopId : String) : StopLocation :=
  match response with
  | some loc => loc
  | none => getMockStopLocation stopId

/-! ## The monitor tick (`checkBusProximity`, src/unnamed/part_005) -/

/-- One loop iteration of `checkBusProximity`: compute the distance from the
vehicle to the stop; within threshold, consult `shouldSendAlert`, and on a
positive answer send the proximity alert and record it (the tick passes no
stop name, so `recordAlert` receives its `''` default). -/
noncomputable def processVehicle (config : MonitorConfig) (now : Nat)
    (stopLocation : StopLocation) (st : CheckerState ℝ) (vehicle : Vehicle) :
    CheckerState ℝ :=
  let distance := calculateDistance vehicle.latitude vehicle.longitude
    stopLocation.latitude stopLocation.longitude
  if distance ≤ (config.proximityThreshold : ℝ) then
    if shouldSendAlert st.alertState now config.chatId config.routeId
        vehicle.id config.maxAlerts then
      let alert : ProximityAlert ℝ :=
        { chatId := config.chatId, routeNumber := config.routeNumber
          stopName := config.stopName, vehicleId := vehicle.id
          distance := distance }
      { st with
        sentMessages := st.sentMessages ++ [alert]
        alertState := recordAlert st.alertState now config.chatId
          config.routeId vehicle.id distance "" }
    else st
  else st

/-- Embeds `checkBusProximity(config)`: fetch vehicles and the stop location (each
abstracted as an `Option` response, `none` = the underlying request threw and
the service fell back to mock data), then process every vehicle in order. -/
noncomputable def checkBusProximity (st : CheckerState ℝ) (now : Nat)
    (config : MonitorConfig) (vehiclesResponse : Option (List Vehicle))
    (stopResponse : Option StopLocation) (ρ : MockRands) : CheckerState ℝ :=
  let vehicles := getVehiclePositions vehiclesResponse config.routeId now ρ
  let stopLocation := getStopLocation stopResponse config.stopId
  vehicles.foldl (processVehicle config now stopLocation) st

/-! ## Helper lemmas about the JS `Map` model -/

theorem mapGet_mapSet_self {α : Type} (m : List (String × α)) (k : String)
    (v : α) : mapGet (mapSet m k v) k = some v := by
  induction m with
  | nil => simp [mapGet, mapSet]
  | cons p rest ih =>
    obtain ⟨k', v'⟩ := p
    by_cases h : k' = k
    · simp [mapGet, mapSet, h]
    · simp [mapGet, mapSet, h, ih]

theorem mapGet_mapSet_ne {α : Type} (m : List (String × α)) (k k' : String)
    (v : α) (h : k' ≠ k) : mapGet (mapSet m k v) k' = mapGet m k' := by
  have hk' : ¬(k = k') := fun e => h e.symm
  induction m with
  | nil => simp [mapGet, mapSet, hk']
  | cons p rest ih =>
    obtain ⟨k₀, v₀⟩ := p
    by_cases hk : k₀ = k
    · subst hk
      simp [mapGet, mapSet, hk']
    · by_cases hk₀ : k₀ = k'
      · simp [mapGet, mapSet, hk, hk₀, h]
      · simp [mapGet, mapSet, hk, hk₀, ih]

/-! ## Helper lemmas about `shouldSendAlert` and `recordAlert` -/

/-- The try body of `shouldSendAlert` never reaches the catch arm, and the
result is `true` exactly when the cooldown gate and the daily-cap gate both
pass. -/
theorem shouldSendAlert_true_iff {δ : Type} (st : AlertState δ) (now : Nat)
    (chatId routeId vehicleId : String) (maxAlerts : Nat) :
    shouldSendAlert st now chatId routeId vehicleId maxAlerts = true ↔
      (∀ mark, mapGet st.sentAlerts (generateAlertKey chatId routeId vehicleId)
          = some mark → ¬((now : Int) - mark.lastSent < (cooldownPeriod : Int)))
      ∧ (getTodayAlerts st now chatId routeId).length < maxAlerts := by
  unfold shouldSendAlert shouldSendAlertBody
  rcases hmark : mapGet st.sentAlerts (generateAlertKey chatId routeId vehicleId)
    with _ | mark
  · simp only [hmark]
    by_cases hcap : (getTodayAlerts st now chatId routeId).length ≥ maxAlerts
    · simp [hcap, Nat.not_lt.mpr hcap]
    · simp [hcap, Nat.lt_of_not_le hcap]
  · simp only [hmark]
    by_cases hcd : (now : Int) - mark.lastSent < (cooldownPeriod : Int)
    · simp only [hcd, decide_eq_true_eq, if_pos hcd]
      constructor
      · intro h
        simp at h
      · rintro ⟨hmarks, -⟩
        exact absurd hcd (hmarks mark rfl)
    · by_cases hcap : (getTodayAlerts st now chatId routeId).length ≥ maxAlerts
      · simp [hcd, hcap, Nat.not_lt.mpr hcap]
      · simp only [hcd, decide_eq_true_eq, if_neg hcd, if_neg hcap]
        refine ⟨fun _ => ⟨fun m hm => ?_, Nat.lt_of_not_le hcap⟩, fun _ => rfl⟩
        cases hm
        exact hcd

/-- Lemma: `recordAlert` writes a cooldown mark carrying `now` as `lastSent`. -/
theorem recordAlert_sentAlerts_get {δ : Type} (st : AlertState δ) (now : Nat)
    (chatId routeId vehicleId : String) (d : δ) (stopName : String) :
    mapGet (recordAlert st now chatId routeId vehicleId d stopName).sentAlerts
        (generateAlertKey chatId routeId vehicleId) =
      some { chatId := chatId, routeId := routeId, vehicleId := vehicleId
             lastSent := now, distance := d, stopName := stopName } := by
  unfold recordAlert
  exact mapGet_mapSet_self _ _ _

/-! ## Claim C1: cooldown gating after `recordAlert` -/

/-- C1: after `Record(chatId, routeId, vehicleId, distance, stopName)`, an
immediately subsequent `ShouldAlert` for the same key returns `false`
(cooldown enforced); and, provided today's alert count for
(chatId, routeId) is below `maxAlerts`, `ShouldAlert` returns `true` again
once time has advanced by at least `cooldownPeriod` (600 s) from the
recorded `lastSent`. -/
theorem recordAlert_cooldown_gate {δ : Type} (st : AlertState δ)
    (chatId routeId vehicleId : String) (d : δ) (stopName : String)
    (maxAlerts now later : Nat)
    (hc : (cooldownPeriod : Int) ≤ (later : Int) - (now : Int))
    (hm : (getTodayAlerts (recordAlert st now chatId routeId vehicleId d stopName)
        later chatId routeId).length < maxAlerts) :
    shouldSendAlert (recordAlert st now chatId routeId vehicleId d stopName)
        now chatId routeId vehicleId maxAlerts = false
    ∧ shouldSendAlert (recordAlert st now chatId routeId vehicleId d stopName)
        later chatId routeId vehicleId maxAlerts = true := by
  constructor
  · by_contra htrue
    rw [Bool.not_eq_false, shouldSendAlert_true_iff] at htrue
    have hnot := htrue.1 _
      (recordAlert_sentAlerts_get st now chatId routeId vehicleId d stopName)
    simp [cooldownPeriod] at hnot
  · rw [shouldSendAlert_true_iff]
    refine ⟨?_, hm⟩
    intro mark hmark
    rw [recordAlert_sentAlerts_get] at hmark
    cases hmark
    exact not_lt.mpr hc

/-- Witness for C1 at a concrete input: recording at time 0 blocks an
immediate re-alert and allows one at 600 s. -/
theorem recordAlert_cooldown_gate_witness :
    shouldSendAlert (recordAlert (⟨[], []⟩ : AlertState Unit) 0 "c" "r" "v" () "s")
        0 "c" "r" "v" 5 = false
    ∧ shouldSendAlert (recordAlert (⟨[], []⟩ : AlertState Unit) 0 "c" "r" "v" () "s")
        600000 "c" "r" "v" 5 = true :=
  recordAlert_cooldown_gate (⟨[], []⟩ : AlertState Unit) "c" "r" "v" () "s" 5 0 600000
    (by decide) (by decide)

/-! ## Claim C2: daily cap gating -/

/-- C2: once today's alert count for (chatId, routeId) reaches `maxAlerts`,
`ShouldAlert` returns `false` for every vehicle id; and it returns `true`
again once the day boundary has reset the count (every stored record is
older than today's midnight), for a vehicle whose cooldown has elapsed,
provided the cap is positive. -/
theorem dailyCap_gate {δ : Type} (st : AlertState δ) (now : Nat)
    (chatId routeId vehicleId : String) (maxAlerts : Nat) :
    (maxAlerts ≤ (getTodayAlerts st now chatId routeId).length →
      shouldSendAlert st now chatId routeId vehicleId maxAlerts = false)
    ∧ ((∀ a ∈ (mapGet st.alerts (generateChatRouteKey chatId routeId)).getD [],
          a.timestamp < midnightOf now) →
       (∀ mark, mapGet st.sentAlerts (generateAlertKey chatId routeId vehicleId)
          = some mark → (cooldownPeriod : Int) ≤ (now : Int) - mark.lastSent) →
       0 < maxAlerts →
       shouldSendAlert st now chatId routeId vehicleId maxAlerts = true) := by
  constructor
  · intro hcap
    by_contra h
    rw [Bool.not_eq_false, shouldSendAlert_true_iff] at h
    exact absurd h.2 (Nat.not_lt.mpr hcap)
  · intro hall hcd hmax
    rw [shouldSendAlert_true_iff]
    refine ⟨fun mark hm => not_lt.mpr (hcd mark hm), ?_⟩
    have hempty : getTodayAlerts st now chatId routeId = [] := by
      unfold getTodayAlerts
      rw [List.filter_eq_nil_iff]
      intro a ha
      simp only [decide_eq_true_eq]
      exact Nat.not_le.mpr (hall a ha)
    rw [hempty]
    exact hmax

/-- Witness for C2 at concrete inputs: a chat/route with 5 same-day records
is capped at `maxAlerts = 5` even for a fresh vehicle id; one day later the
count is reset and a vehicle with an expired cooldown mark alerts again. -/
theorem dailyCap_gate_witness :
    shouldSendAlert
      (⟨[("c_r", [⟨"v1", (), "", 0, "k1"⟩, ⟨"v2", (), "", 0, "k2"⟩,
          ⟨"v3", (), "", 0, "k3"⟩, ⟨"v4", (), "", 0, "k4"⟩,
          ⟨"v5", (), "", 0, "k5"⟩])], []⟩ : AlertState Unit)
      0 "c" "r" "v" 5 = false
    ∧ shouldSendAlert
      (⟨[("c_r", [⟨"v", (), "", 0, "k"⟩])],
        [("c_r_v", ⟨"c", "r", "v", 0, (), ""⟩)]⟩ : AlertState Unit)
      86400000 "c" "r" "v" 5 = true :=
  ⟨(dailyCap_gate
      (⟨[("c_r", [⟨"v1", (), "", 0, "k1"⟩, ⟨"v2", (), "", 0, "k2"⟩,
          ⟨"v3", (), "", 0, "k3"⟩, ⟨"v4", (), "", 0, "k4"⟩,
          ⟨"v5", (), "", 0, "k5"⟩])], []⟩ : AlertState Unit)
      0 "c" "r" "v" 5).1 (by decide),
   (dailyCap_gate
      (⟨[("c_r", [⟨"v", (), "", 0, "k"⟩])],
        [("c_r_v", ⟨"c", "r", "v", 0, (), ""⟩)]⟩ : AlertState Unit)
      86400000 "c" "r" "v" 5).2 (by decide)
      (by
        intro mark hm
        simp only [mapGet, generateAlertKey] at hm
        rw [if_pos (by decide)] at hm
        cases hm
        decide)
      (by decide)⟩

/-! ## Claim C7: bounded history retention -/

/-- C7: if every stored history list holds at most 100 records, then after
`recordAlert` every history list still holds at most 100 records, and the
list stored for the touched (chatId, routeId) key is exactly the newest
suffix of the old history extended by the new record (the front, i.e. the
oldest entries, is dropped whenever the bound would be exceeded). -/
theorem recordAlert_retention {δ : Type} (st : AlertState δ) (now : Nat)
    (chatId routeId vehicleId : String) (d : δ) (stopName : String)
    (hbound : ∀ k l, mapGet st.alerts k = some l → l.length ≤ 100) :
    (∀ k l, mapGet (recordAlert st now chatId routeId vehicleId d stopName).alerts
        k = some l → l.length ≤ 100)
    ∧ mapGet (recordAlert st now chatId routeId vehicleId d stopName).alerts
        (generateChatRouteKey chatId routeId)
      = some (((mapGet st.alerts (generateChatRouteKey chatId routeId)).getD []
          ++ [({ vehicleId := vehicleId, distance := d, stopName := stopName
                 timestamp := now
                 alertKey := generateAlertKey chatId routeId vehicleId } : AlertRecord δ)]).drop
          ((((mapGet st.alerts (generateChatRouteKey chatId routeId)).getD []).length
            + 1) - 100)) := by
  set key := generateChatRouteKey chatId routeId with hkey
  set oldList := (mapGet st.alerts key).getD [] with holdList
  set record : AlertRecord δ :=
    { vehicleId := vehicleId, distance := d, stopName := stopName
      timestamp := now, alertKey := generateAlertKey chatId routeId vehicleId }
    with hrecord
  have halerts : (recordAlert st now chatId routeId vehicleId d stopName).alerts
      = mapSet st.alerts key (if (oldList ++ [record]).length > 100
          then (oldList ++ [record]).drop ((oldList ++ [record]).length - 100)
          else (oldList ++ [record])) := rfl
  have htrim : (if (oldList ++ [record]).length > 100
      then (oldList ++ [record]).drop ((oldList ++ [record]).length - 100)
      else (oldList ++ [record]))
      = (oldList ++ [record]).drop ((oldList ++ [record]).length - 100) := by
    by_cases h : (oldList ++ [record]).length > 100
    · rw [if_pos h]
    · rw [if_neg h, Nat.sub_eq_zero_of_le (Nat.le_of_not_lt h), List.drop_zero]
  have hlen : (oldList ++ [record]).length = oldList.length + 1 := by simp
  constructor
  · intro k l hl
    by_cases hk : k = key
    · subst hk
      rw [halerts, mapGet_mapSet_self, htrim] at hl
      have hl' := Option.some.inj hl
      rw [← hl', List.length_drop]
      omega
    · rw [halerts, mapGet_mapSet_ne _ _ _ _ hk] at hl
      exact hbound k l hl
  · rw [halerts, mapGet_mapSet_self, htrim, hlen]

/-- Witness for C7 at a concrete input: recording into an empty store leaves
a single-record history (the drop index is 0). -/
theorem recordAlert_retention_witness :
    (∀ k l, mapGet (recordAlert (⟨[], []⟩ : AlertState Unit) 0 "c" "r" "v" () "s").alerts
        k = some l → l.length ≤ 100)
    ∧ mapGet (recordAlert (⟨[], []⟩ : AlertState Unit) 0 "c" "r" "v" () "s").alerts
        (generateChatRouteKey "c" "r")
      = some (((mapGet (AlertState.alerts (⟨[], []⟩ : AlertState Unit)) (generateChatRouteKey "c" "r")).getD []
          ++ [({ vehicleId := "v", distance := (), stopName := "s"
                 timestamp := 0, alertKey := generateAlertKey "c" "r" "v" } : AlertRecord Unit)]).drop
          ((((mapGet (AlertState.alerts (⟨[], []⟩ : AlertState Unit)) (generateChatRouteKey "c" "r")).getD []).length
            + 1) - 100)) :=
  recordAlert_retention (⟨[], []⟩ : AlertState Unit) 0 "c" "r" "v" () "s"
    (by intro k l h; simp [mapGet] at h)

/-! ## Claim C8: fresh cooldown key (corrected) -/

/-- C8 counterexample: a (chat, route, vehicle) key with no `SentAlertMark`
for which `shouldSendAlert` nevertheless returns `false`, because the daily
cap for (chat, route) is already reached — refuting the unconditional claim
that the absence of a mark makes `ShouldAlert` return `true`. -/
theorem shouldSendAlert_no_mark_cex :
    mapGet (AlertState.sentAlerts
      (⟨[("c_r", [⟨"v1", (), "", 0, "k1"⟩, ⟨"v2", (), "", 0, "k2"⟩,
          ⟨"v3", (), "", 0, "k3"⟩, ⟨"v4", (), "", 0, "k4"⟩,
          ⟨"v5", (), "", 0, "k5"⟩])], []⟩ : AlertState Unit))
      (generateAlertKey "c" "r" "v") = none
    ∧ shouldSendAlert
      (⟨[("c_r", [⟨"v1", (), "", 0, "k1"⟩, ⟨"v2", (), "", 0, "k2"⟩,
          ⟨"v3", (), "", 0, "k3"⟩, ⟨"v4", (), "", 0, "k4"⟩,
          ⟨"v5", (), "", 0, "k5"⟩])], []⟩ : AlertState Unit)
      0 "c" "r" "v" 5 = false := by
  decide

/-- C8 (amended): for a (chat, route, vehicle) key with no `SentAlertMark`,
`ShouldAlert` returns `true`, provided today's alert count for the
(chat, route) pair is below `maxAlerts`. -/
theorem shouldSendAlert_no_mark {δ : Type} (st : AlertState δ) (now : Nat)
    (chatId routeId vehicleId : String) (maxAlerts : Nat)
    (hnone : mapGet st.sentAlerts (generateAlertKey chatId routeId vehicleId) = none)
    (hcap : (getTodayAlerts st now chatId routeId).length < maxAlerts) :
    shouldSendAlert st now chatId routeId vehicleId maxAlerts = true := by
  rw [shouldSendAlert_true_iff]
  refine ⟨fun mark hm => ?_, hcap⟩
  rw [hnone] at hm
  cases hm

/-- Witness for the amended C8 at a concrete input: an empty store allows the
first alert. -/
theorem shouldSendAlert_no_mark_witness :
    shouldSendAlert (⟨[], []⟩ : AlertState Unit) 0 "c" "r" "v" 5 = true :=
  shouldSendAlert_no_mark (⟨[], []⟩ : AlertState Unit) 0 "c" "r" "v" 5
    (by decide) (by decide)

/-! ## Claim C10: `shouldSendAlert` is fail-closed -/

/-- C10: `shouldSendAlert` always returns a boolean (it is a total function
into `Bool`); its catch arm maps every internal error to `false`; a
successful try body propagates its boolean unchanged; and the overall result
is `true` only when the try body succeeded with `true` — so an internal
failure can only suppress an alert, never cause one. -/
theorem shouldSendAlert_fail_closed {δ : Type} (st : AlertState δ) (now : Nat)
    (chatId routeId vehicleId : String) (maxAlerts : Nat) :
    (shouldSendAlert st now chatId routeId vehicleId maxAlerts = true
      ∨ shouldSendAlert st now chatId routeId vehicleId maxAlerts = false)
    ∧ (∀ e, alertCheckFallback e = false)
    ∧ (∀ b, shouldSendAlertBody st now chatId routeId vehicleId maxAlerts
        = Except.ok b →
        shouldSendAlert st now chatId routeId vehicleId maxAlerts = b)
    ∧ (shouldSendAlert st now chatId routeId vehicleId maxAlerts = true →
        shouldSendAlertBody st now chatId routeId vehicleId maxAlerts
          = Except.ok true) := by
  have hbody : ∃ b, shouldSendAlertBody st now chatId routeId vehicleId maxAlerts
      = Except.ok b := by
    unfold shouldSendAlertBody
    dsimp only
    split
    · exact ⟨false, rfl⟩
    · split
      · exact ⟨false, rfl⟩
      · exact ⟨true, rfl⟩
  refine ⟨Bool.eq_false_or_eq_true
      (shouldSendAlert st now chatId routeId vehicleId maxAlerts),
    fun e => rfl,
    fun b hb => by unfold shouldSendAlert; rw [hb], fun htrue => ?_⟩
  obtain ⟨b, hb⟩ := hbody
  have hsb : shouldSendAlert st now chatId routeId vehicleId maxAlerts = b := by
    unfold shouldSendAlert
    rw [hb]
  rw [hsb] at htrue
  rw [← htrue]
  exact hb

/-- Witness for C10 at a concrete input: the catch arm yields `false` on an
error, and a `true` result is backed by a successful try body. -/
theorem shouldSendAlert_fail_closed_witness :
    alertCheckFallback "io error" = false
    ∧ shouldSendAlertBody (⟨[], []⟩ : AlertState Unit) 0 "c" "r" "v" 5
        = Except.ok true :=
  ⟨(shouldSendAlert_fail_closed (⟨[], []⟩ : AlertState Unit) 0 "c" "r" "v" 5).2.1
      "io error",
   (shouldSendAlert_fail_closed (⟨[], []⟩ : AlertState Unit) 0 "c" "r" "v" 5).2.2.2
      (by decide)⟩

/-! ## Helper lemmas about the configuration store -/

theorem mem_insertByCreatedAtDesc (c a : MonitorConfig)
    (l : List MonitorConfig) :
    a ∈ insertByCreatedAtDesc c l ↔ a = c ∨ a ∈ l := by
  induction l with
  | nil => simp [insertByCreatedAtDesc]
  | cons x xs ih =>
    by_cases h : c.createdAt ≤ x.createdAt
    · simp only [insertByCreatedAtDesc, if_pos h, List.mem_cons, ih]
      try tauto
    · simp only [insertByCreatedAtDesc, if_neg h, List.mem_cons]
      try tauto

theorem mem_sortByCreatedAtDesc (a : MonitorConfig) (l : List MonitorConfig) :
    a ∈ sortByCreatedAtDesc l ↔ a ∈ l := by
  induction l with
  | nil => simp [sortByCreatedAtDesc]
  | cons x xs ih =>
    simp [sortByCreatedAtDesc, mem_insertByCreatedAtDesc, ih, eq_comm]

/-- Every member of `getActiveConfigurations` is active. -/
theorem isActive_of_mem_getActive (st : ConfigState) (chatId : String)
    (c : MonitorConfig) (h : c ∈ getActiveConfigurations st chatId) :
    c.isActive = true := by
  unfold getActiveConfigurations at h
  rw [mem_sortByCreatedAtDesc] at h
  obtain ⟨p, hp, rfl⟩ := List.mem_map.1 h
  have hpred := (List.mem_filter.1 hp).2
  rw [Bool.and_eq_true] at hpred
  exact hpred.2

/-- Lemma: `deactivateConfiguration` flips `isActive` off in place: a subsequent
`getConfiguration` sees the stored config with `isActive = false` and a
refreshed `lastUpdated`. -/
theorem getConfiguration_deactivate (st : ConfigState) (now : Nat)
    (chatId routeNumber : String) (cfg : MonitorConfig)
    (hget : getConfiguration st chatId routeNumber = some cfg) :
    getConfiguration (deactivateConfiguration st now chatId routeNumber).2
        chatId routeNumber
      = some { cfg with isActive := false, lastUpdated := now } := by
  unfold getConfiguration at hget
  unfold deactivateConfiguration
  dsimp only
  rw [hget]
  unfold getConfiguration
  exact mapGet_mapSet_self _ _ _

/-! ## Claim C6: Save/Get round-trip and Deactivate (corrected) -/

/-- C6 counterexample: `Save` overwrites the configuration's `lastUpdated`
timestamp with the save time, so `Get` after `Save` does not return a
configuration equal to the input in all fields: saving a config carrying
`lastUpdated = 5` at time 10 yields `lastUpdated = 10`. -/
theorem save_get_roundtrip_cex :
    getConfiguration
      (saveConfiguration ⟨[]⟩ 10 "c" "1"
        ⟨"c", "R", "1", "s1", "Stop", 500, 5, 0, 5, true⟩).2 "c" "1"
      ≠ some ⟨"c", "R", "1", "s1", "Stop", 500, 5, 0, 5, true⟩ := by
  decide

/-- C6 (amended): `Save` then `Get` returns the saved configuration with
every field equal to the input except `lastUpdated`, which `Save` sets to
the save time (in particular `createdAt` and all other fields round-trip);
and `Deactivate` flips `isActive` to `false`, after which the configuration
is excluded from `GetActive`. -/
theorem save_get_roundtrip (st : ConfigState) (now : Nat)
    (chatId routeNumber : String) (config : MonitorConfig) :
    getConfiguration (saveConfiguration st now chatId routeNumber config).2
        chatId routeNumber = some { config with lastUpdated := now }
    ∧ (∀ cfg, getConfiguration st chatId routeNumber = some cfg →
        getConfiguration (deactivateConfiguration st now chatId routeNumber).2
            chatId routeNumber
          = some { cfg with isActive := false, lastUpdated := now }
        ∧ { cfg with isActive := false, lastUpdated := now }
            ∉ getActiveConfigurations
                (deactivateConfiguration st now chatId routeNumber).2 chatId) := by
  refine ⟨?_, fun cfg hget =>
    ⟨getConfiguration_deactivate st now chatId routeNumber cfg hget, ?_⟩⟩
  · unfold saveConfiguration getConfiguration
    exact mapGet_mapSet_self _ _ _
  · intro hmem
    have := isActive_of_mem_getActive _ _ _ hmem
    simp at this

/-- Witness for the amended C6 at concrete inputs: saving into a store where
the key is absent (the first `/monitor` for a chat/route) round-trips with
`lastUpdated` set to the save time, and deactivating an existing
configuration flips `isActive` and excludes it from `GetActive`. -/
theorem save_get_roundtrip_witness :
    getConfiguration
      (saveConfiguration ⟨[]⟩
        7 "c" "1" ⟨"c", "R", "1", "s1", "Stop", 500, 5, 0, 0, true⟩).2 "c" "1"
      = some { (⟨"c", "R", "1", "s1", "Stop", 500, 5, 0, 0, true⟩ : MonitorConfig)
          with lastUpdated := 7 }
    ∧ getConfiguration
      (deactivateConfiguration ⟨[("c_1", ⟨"c", "R", "1", "s1", "Stop", 500, 5, 0, 0, true⟩)]⟩
        7 "c" "1").2 "c" "1"
      = some { (⟨"c", "R", "1", "s1", "Stop", 500, 5, 0, 0, true⟩ : MonitorConfig)
          with isActive := false, lastUpdated := 7 }
    ∧ { (⟨"c", "R", "1", "s1", "Stop", 500, 5, 0, 0, true⟩ : MonitorConfig)
          with isActive := false, lastUpdated := 7 }
        ∉ getActiveConfigurations
            (deactivateConfiguration ⟨[("c_1", ⟨"c", "R", "1", "s1", "Stop", 500, 5, 0, 0, true⟩)]⟩
              7 "c" "1").2 "c" :=
  ⟨(save_get_roundtrip ⟨[]⟩ 7 "c" "1"
      ⟨"c", "R", "1", "s1", "Stop", 500, 5, 0, 0, true⟩).1,
   ((save_get_roundtrip ⟨[("c_1", ⟨"c", "R", "1", "s1", "Stop", 500, 5, 0, 0, true⟩)]⟩
      7 "c" "1" ⟨"c", "R", "1", "s1", "Stop", 500, 5, 0, 0, true⟩).2
      ⟨"c", "R", "1", "s1", "Stop", 500, 5, 0, 0, true⟩ (by decide)).1,
   ((save_get_roundtrip ⟨[("c_1", ⟨"c", "R", "1", "s1", "Stop", 500, 5, 0, 0, true⟩)]⟩
      7 "c" "1" ⟨"c", "R", "1", "s1", "Stop", 500, 5, 0, 0, true⟩).2
      ⟨"c", "R", "1", "s1", "Stop", 500, 5, 0, 0, true⟩ (by decide)).2⟩

/-! ## Claim C4: `stopMonitoring` -/

/-- C4: `Stop(chatId, routeNumber)` returns `true` exactly when a monitoring
task was present for the key; it removes the key from the in-memory active
set; when a task was found it applies `deactivateConfiguration` to the
persisted store, so a stored configuration for the key is marked
`isActive = false`; and when no task was found the state is unchanged. -/
theorem stopMonitoring_spec {δ : Type} (st : CheckerState δ) (now : Nat)
    (chatId routeNumber : String) :
    (stopMonitoring st now chatId routeNumber).1
      = st.monitoringIntervals.contains (chatId ++ "_" ++ routeNumber)
    ∧ (stopMonitoring st now chatId routeNumber).2.monitoringIntervals
      = st.monitoringIntervals.filter (fun k => k ≠ chatId ++ "_" ++ routeNumber)
    ∧ (st.monitoringIntervals.contains (chatId ++ "_" ++ routeNumber) = true →
        ∀ cfg, getConfiguration st.configState chatId routeNumber = some cfg →
          getConfiguration (stopMonitoring st now chatId routeNumber).2.configState
              chatId routeNumber
            = some { cfg with isActive := false, lastUpdated := now })
    ∧ ((stopMonitoring st now chatId routeNumber).1 = false →
        (stopMonitoring st now chatId routeNumber).2 = st) := by
  by_cases h : st.monitoringIntervals.contains (chatId ++ "_" ++ routeNumber) = true
  · refine ⟨?_, ?_, ?_, ?_⟩
    · simp only [stopMonitoring, h, if_true]
    · simp only [stopMonitoring, h, if_true]
    · intro _ cfg hcfg
      simp only [stopMonitoring, h, if_true]
      exact getConfiguration_deactivate st.configState now chatId routeNumber cfg hcfg
    · intro hfalse
      simp only [stopMonitoring, h, if_true] at hfalse
      simp at hfalse
  · have hnotmem : (chatId ++ "_" ++ routeNumber) ∉ st.monitoringIntervals := by
      intro hmem
      exact h (List.elem_iff.2 hmem)
    refine ⟨?_, ?_, ?_, ?_⟩
    · simp only [stopMonitoring, if_neg h]
      exact (Bool.eq_false_iff.2 h).symm
    · simp only [stopMonitoring, if_neg h]
      refine (List.filter_eq_self.2 ?_).symm
      intro a ha
      simp only [decide_eq_true_eq]
      intro heq
      exact hnotmem (heq ▸ ha)
    · intro habs
      exact absurd habs h
    · intro _
      simp only [stopMonitoring, if_neg h]

/-- Witness for C4 at concrete inputs: stopping an existing task and
stopping a missing one. -/
theorem stopMonitoring_spec_witness :
    (stopMonitoring
      (⟨["u_1"], ⟨[("u_1", ⟨"u", "R", "1", "s1", "Stop", 500, 5, 0, 0, true⟩)]⟩,
        ⟨[], []⟩, []⟩ : CheckerState Unit) 9 "u" "1").1
      = (["u_1"] : List String).contains ("u" ++ "_" ++ "1")
    ∧ (stopMonitoring
      (⟨["u_1"], ⟨[("u_1", ⟨"u", "R", "1", "s1", "Stop", 500, 5, 0, 0, true⟩)]⟩,
        ⟨[], []⟩, []⟩ : CheckerState Unit) 9 "u" "1").2.monitoringIntervals
      = (["u_1"] : List String).filter (fun k => k ≠ "u" ++ "_" ++ "1")
    ∧ getConfiguration (stopMonitoring
      (⟨["u_1"], ⟨[("u_1", ⟨"u", "R", "1", "s1", "Stop", 500, 5, 0, 0, true⟩)]⟩,
        ⟨[], []⟩, []⟩ : CheckerState Unit) 9 "u" "1").2.configState "u" "1"
      = some { (⟨"u", "R", "1", "s1", "Stop", 500, 5, 0, 0, true⟩ : MonitorConfig)
          with isActive := false, lastUpdated := 9 } :=
  ⟨(stopMonitoring_spec
      (⟨["u_1"], ⟨[("u_1", ⟨"u", "R", "1", "s1", "Stop", 500, 5, 0, 0, true⟩)]⟩,
        ⟨[], []⟩, []⟩ : CheckerState Unit) 9 "u" "1").1,
   (stopMonitoring_spec
      (⟨["u_1"], ⟨[("u_1", ⟨"u", "R", "1", "s1", "Stop", 500, 5, 0, 0, true⟩)]⟩,
        ⟨[], []⟩, []⟩ : CheckerState Unit) 9 "u" "1").2.1,
   (stopMonitoring_spec
      (⟨["u_1"], ⟨[("u_1", ⟨"u", "R", "1", "s1", "Stop", 500, 5, 0, 0, true⟩)]⟩,
        ⟨[], []⟩, []⟩ : CheckerState Unit) 9 "u" "1").2.2.1 (by decide) _ (by decide)⟩

/-- After `deactivateAllConfigurations(chatId)`, the chat has no active
configurations left. -/
theorem getActive_deactivateAll (st : ConfigState) (now : Nat)
    (chatId : String) :
    getActiveConfigurations (deactivateAllConfigurations st now chatId).2 chatId
      = [] := by
  unfold getActiveConfigurations
  have hfil : ((deactivateAllConfigurations st now chatId).2.configurations).filter
      (fun p => strStartsWith p.1 (chatId ++ "_") && p.2.isActive) = [] := by
    rw [List.filter_eq_nil_iff]
    rintro ⟨k, c⟩ hmem
    unfold deactivateAllConfigurations at hmem
    simp only [List.mem_map] at hmem
    obtain ⟨⟨k0, c0⟩, hmem0, heq⟩ := hmem
    by_cases hhit : (strStartsWith (k0, c0).1 (chatId ++ "_")
        && (k0, c0).2.isActive) = true
    · rw [if_pos hhit] at heq
      cases heq
      simp
    · rw [if_neg hhit] at heq
      cases heq
      simpa using hhit
  rw [hfil]
  rfl

/-! ## Claim C5: `stopAllMonitoring` -/

/-- C5: `StopAll(chatId)` returns the number of monitoring keys with the
`chatId + '_'` prefix, removes every such key from the in-memory active set,
and — whenever at least one task was stopped — leaves `GetActive(chatId)`
with zero active configurations for that chat. -/
theorem stopAllMonitoring_spec {δ : Type} (st : CheckerState δ) (now : Nat)
    (chatId : String) :
    (stopAllMonitoring st now chatId).1
      = (st.monitoringIntervals.filter
          (fun k => strStartsWith k (chatId ++ "_"))).length
    ∧ (stopAllMonitoring st now chatId).2.monitoringIntervals.filter
        (fun k => strStartsWith k (chatId ++ "_")) = []
    ∧ (0 < (stopAllMonitoring st now chatId).1 →
        getActiveConfigurations (stopAllMonitoring st now chatId).2.configState
          chatId = []) := by
  have hcount : (stopAllMonitoring st now chatId).1
      = (st.monitoringIntervals.filter
          (fun k => strStartsWith k (chatId ++ "_"))).length := by
    unfold stopAllMonitoring
    dsimp only
    split
    · rfl
    · rfl
  have hrem : (stopAllMonitoring st now chatId).2.monitoringIntervals
      = st.monitoringIntervals.filter
          (fun k => !(strStartsWith k (chatId ++ "_"))) := by
    unfold stopAllMonitoring
    dsimp only
    split
    · rfl
    · rfl
  refine ⟨hcount, ?_, ?_⟩
  · rw [hrem, List.filter_eq_nil_iff]
    intro a ha
    have hneg := (List.mem_filter.1 ha).2
    simp only [Bool.not_eq_true'] at hneg
    simp [hneg]
  · intro hpos
    have hcfg : (stopAllMonitoring st now chatId).2.configState
        = (deactivateAllConfigurations st.configState now chatId).2 := by
      rw [hcount] at hpos
      unfold stopAllMonitoring
      dsimp only
      rw [if_pos hpos]
    rw [hcfg]
    exact getActive_deactivateAll st.configState now chatId

/-- Witness for C5 mirroring the spec scenario: three active keys for the
chat are all stopped, the call returns 3, and `GetActive` is left empty. -/
theorem stopAllMonitoring_spec_witness :
    (stopAllMonitoring
      (⟨["u_1", "u_2", "u_3"],
        ⟨[("u_1", ⟨"u", "R1", "1", "s1", "Stop 1", 500, 5, 0, 0, true⟩),
          ("u_2", ⟨"u", "R2", "2", "s2", "Stop 2", 500, 5, 1, 1, true⟩),
          ("u_3", ⟨"u", "R3", "3", "s3", "Stop 3", 500, 5, 2, 2, true⟩)]⟩,
        ⟨[], []⟩, []⟩ : CheckerState Unit) 9 "u").1 = 3
    ∧ getActiveConfigurations
      (stopAllMonitoring
        (⟨["u_1", "u_2", "u_3"],
          ⟨[("u_1", ⟨"u", "R1", "1", "s1", "Stop 1", 500, 5, 0, 0, true⟩),
            ("u_2", ⟨"u", "R2", "2", "s2", "Stop 2", 500, 5, 1, 1, true⟩),
            ("u_3", ⟨"u", "R3", "3", "s3", "Stop 3", 500, 5, 2, 2, true⟩)]⟩,
          ⟨[], []⟩, []⟩ : CheckerState Unit) 9 "u").2.configState "u" = [] :=
  ⟨((stopAllMonitoring_spec
      (⟨["u_1", "u_2", "u_3"],
        ⟨[("u_1", ⟨"u", "R1", "1", "s1", "Stop 1", 500, 5, 0, 0, true⟩),
          ("u_2", ⟨"u", "R2", "2", "s2", "Stop 2", 500, 5, 1, 1, true⟩),
          ("u_3", ⟨"u", "R3", "3", "s3", "Stop 3", 500, 5, 2, 2, true⟩)]⟩,
        ⟨[], []⟩, []⟩ : CheckerState Unit) 9 "u").1).trans (by decide),
   (stopAllMonitoring_spec
      (⟨["u_1", "u_2", "u_3"],
        ⟨[("u_1", ⟨"u", "R1", "1", "s1", "Stop 1", 500, 5, 0, 0, true⟩),
          ("u_2", ⟨"u", "R2", "2", "s2", "Stop 2", 500, 5, 1, 1, true⟩),
          ("u_3", ⟨"u", "R3", "3", "s3", "Stop 3", 500, 5, 2, 2, true⟩)]⟩,
        ⟨[], []⟩, []⟩ : CheckerState Unit) 9 "u").2.2 (by decide)⟩

/-! ## Helper lemmas about the haversine distance -/

theorem atan2_zero_one : atan2 0 1 = 0 := by
  unfold atan2
  rw [if_pos one_pos]
  simp [Real.arctan_zero]

/-- The distance from a point to itself is zero. -/
theorem calculateDistance_self (lat lon : ℝ) :
    calculateDistance lat lon lat lon = 0 := by
  unfold calculateDistance
  dsimp only
  simp [sub_self, Real.sin_zero, Real.sqrt_zero, Real.sqrt_one, atan2_zero_one]

/-- The haversine distance is symmetric in its two endpoints. -/
theorem calculateDistance_symm (lat1 lon1 lat2 lon2 : ℝ) :
    calculateDistance lat1 lon1 lat2 lon2
      = calculateDistance lat2 lon2 lat1 lon1 := by
  unfold calculateDistance
  dsimp only
  have e1 : (lat1 - lat2) * Real.pi / 180 / 2
      = -((lat2 - lat1) * Real.pi / 180 / 2) := by ring
  have e2 : (lon1 - lon2) * Real.pi / 180 / 2
      = -((lon2 - lon1) * Real.pi / 180 / 2) := by ring
  rw [e1, e2]
  simp only [Real.sin_neg]
  ring_nf

/-! ## Claim C9: distance symmetry and identity -/

/-- C9: for all valid coordinate pairs (latitudes in [-90, 90], longitudes
in [-180, 180]), `calculateDistance` is symmetric and the distance of a
point to itself is 0. -/
theorem calculateDistance_symm_and_self (lat1 lon1 lat2 lon2 : ℝ)
    (h1 : -90 ≤ lat1) (h2 : lat1 ≤ 90) (h3 : -180 ≤ lon1) (h4 : lon1 ≤ 180)
    (h5 : -90 ≤ lat2) (h6 : lat2 ≤ 90) (h7 : -180 ≤ lon2) (h8 : lon2 ≤ 180) :
    calculateDistance lat1 lon1 lat2 lon2 = calculateDistance lat2 lon2 lat1 lon1
    ∧ calculateDistance lat1 lon1 lat1 lon1 = 0 :=
  ⟨calculateDistance_symm lat1 lon1 lat2 lon2, calculateDistance_self lat1 lon1⟩

/-- Witness for C9 at the spec's concrete coordinates (São Paulo centre and
Santos). -/
theorem calculateDistance_symm_and_self_witness :
    calculateDistance (-23.5505) (-46.6333) (-23.9608) (-46.3331)
      = calculateDistance (-23.9608) (-46.3331) (-23.5505) (-46.6333)
    ∧ calculateDistance (-23.5505) (-46.6333) (-23.5505) (-46.6333) = 0 :=
  calculateDistance_symm_and_self (-23.5505) (-46.6333) (-23.9608) (-46.3331)
    (by norm_num) (by norm_num) (by norm_num) (by norm_num)
    (by norm_num) (by norm_num) (by norm_num) (by norm_num)

/-! ## Claim C3: tick behaviour under a failed vehicle fetch (corrected) -/

/-- C3 (amended): when the vehicle-position fetch fails, `getVehiclePositions`
does not surface the error or skip the tick — it falls back to the two mock
vehicles, and the tick proceeds on them exactly as it would on fetched data
(so it may send and record alerts for mock vehicles); no error reaches the
user and the monitoring task's interval set is untouched, so the task
continues on schedule. -/
theorem checkBusProximity_fetch_failure (st : CheckerState ℝ) (now : Nat)
    (config : MonitorConfig) (stopResponse : Option StopLocation)
    (ρ : MockRands) :
    getVehiclePositions none config.routeId now ρ
      = getMockVehicles config.routeId now ρ
    ∧ checkBusProximity st now config none stopResponse ρ
      = checkBusProximity st now config
          (some (getMockVehicles config.routeId now ρ)) stopResponse ρ
    ∧ (checkBusProximity st now config none stopResponse ρ).monitoringIntervals
      = st.monitoringIntervals := by
  refine ⟨rfl, rfl, ?_⟩
  unfold checkBusProximity
  dsimp only
  generalize getVehiclePositions none config.routeId now ρ = vehicles
  generalize getStopLocation stopResponse config.stopId = loc
  induction vehicles generalizing st with
  | nil => rfl
  | cons v vs ih =>
    rw [List.foldl_cons, ih (processVehicle config now loc st v)]
    unfold processVehicle
    dsimp only
    split
    · split
      · rfl
      · rfl
    · rfl

/-- C3 counterexample: a tick whose vehicle-position fetch fails (`none`)
nevertheless sends proximity alerts and records alert history, because the
transit client substitutes mock vehicles: with the stop at (-23.6, -46.45)
and mock random draws placing both fallback vehicles exactly there, the tick
ends with a non-empty outbound message list and non-empty alert history —
refuting the claim that a failed fetch makes the tick send no alert and
record nothing. -/
theorem checkBusProximity_fetch_failure_cex :
    (checkBusProximity
        ⟨[], ⟨[]⟩, ⟨[], []⟩, []⟩ 0
        ⟨"chat1", "R1", "001", "stopX", "Stop X", 500, 5, 0, 0, true⟩
        none
        (some ⟨"stopX", -23.6, -46.45, "Stop X", "addr"⟩)
        ⟨0.5, 0.5, 0, 0, 0, 0, 0, 0⟩).sentMessages ≠ []
    ∧ (checkBusProximity
        ⟨[], ⟨[]⟩, ⟨[], []⟩, []⟩ 0
        ⟨"chat1", "R1", "001", "stopX", "Stop X", 500, 5, 0, 0, true⟩
        none
        (some ⟨"stopX", -23.6, -46.45, "Stop X", "addr"⟩)
        ⟨0.5, 0.5, 0, 0, 0, 0, 0, 0⟩).alertState.alerts ≠ [] := by
  have ha1 : (-23.6000 + ((0.5 : ℝ) - 0.5) * 0.01) = (-23.6 : ℝ) := by norm_num
  have hb1 : (-46.4500 + ((0.5 : ℝ) - 0.5) * 0.01) = (-46.45 : ℝ) := by norm_num
  have ha2 : (-23.5950 + ((0 : ℝ) - 0.5) * 0.01) = (-23.6 : ℝ) := by norm_num
  have hb2 : (-46.4450 + ((0 : ℝ) - 0.5) * 0.01) = (-46.45 : ℝ) := by norm_num
  unfold checkBusProximity getVehiclePositions getMockVehicles getStopLocation
  dsimp only
  rw [List.foldl_cons, List.foldl_cons, List.foldl_nil]
  unfold processVehicle
  dsimp only
  rw [ha1, hb1, ha2, hb2, calculateDistance_self]
  norm_num [shouldSendAlert, shouldSendAlertBody, getTodayAlerts,
    generateAlertKey, generateChatRouteKey, mapGet, mapSet, recordAlert,
    midnightOf, msPerDay, cooldownPeriod, alertCheckFallback]
  simp

end EmtuChecker
